import Mathlib

/-!
Verification development for the Threat-Eye scan engine and history store.

The definitions below are a shallow embedding of the TypeScript sources:
the file-analysis engine (class FileAnalysisEngine: analyzeFiles,
analyzeFile, the four scan stages, calculateFinalRisk) and the history
manager (class ScanHistoryManager: saveHistoricalScan, getHistory,
filterHistoryByThreatLevel, addTagsToScan, saveHistory).

Modelling conventions:
* JavaScript numbers that only ever hold integers (sizes, counters,
  risk scores, timestamps in milliseconds) are modelled as Nat or Int;
  the floating-point accumulator in calculateFinalRisk is modelled as
  a rational number, and Math.round is floor (x + 1/2).
* Calls to Math.random() and to the wall clock (Date.now / new Date)
  are inputs of the model, collected in a FileOracle record per file.
* Browser localStorage holds one serialized document; the store state
  is modelled as the in-memory list of entries, and the JSON
  serialize/parse round trip (with date revival) as the identity.
* Randomly generated id strings and binary file content (stripped
  before persistence by the source) are omitted from the records.
-/

/-- Threat classification scale of the engine (shared/fileAnalysis.ts). -/
inductive ThreatLevel
  | CLEAN
  | SUSPICIOUS
  | MALICIOUS
  | CRITICAL
deriving DecidableEq, Repr

/-- Severity labels attached to individual detections. -/
inductive Severity
  | LOW
  | MEDIUM
  | HIGH
  | CRITICAL
deriving DecidableEq, Repr

/-- Status of one file analysis. -/
inductive ScanStatus
  | SCANNING
  | COMPLETED
  | FAILED
deriving DecidableEq, Repr

/-- Position of a classification on the ordered severity scale
(clean < suspicious < malicious < critical). -/
def threatRank : ThreatLevel → Nat
  | ThreatLevel.CLEAN => 0
  | ThreatLevel.SUSPICIOUS => 1
  | ThreatLevel.MALICIOUS => 2
  | ThreatLevel.CRITICAL => 3

/-- The string form of a classification, as stored in the TS union type. -/
def threatToString : ThreatLevel → String
  | ThreatLevel.CLEAN => "CLEAN"
  | ThreatLevel.SUSPICIOUS => "SUSPICIOUS"
  | ThreatLevel.MALICIOUS => "MALICIOUS"
  | ThreatLevel.CRITICAL => "CRITICAL"

/-- Lower-case form used by generateAutoTags (overallThreat.toLowerCase()). -/
def threatToLowerString : ThreatLevel → String
  | ThreatLevel.CLEAN => "clean"
  | ThreatLevel.SUSPICIOUS => "suspicious"
  | ThreatLevel.MALICIOUS => "malicious"
  | ThreatLevel.CRITICAL => "critical"

/-- Does the character list start with the given pattern list. -/
def charsStartWith : List Char → List Char → Bool
  | _, [] => true
  | [], _ :: _ => false
  | c :: cs, p :: ps => c == p && charsStartWith cs ps

/-- Does the character list contain the pattern as a contiguous run. -/
def charsContain : List Char → List Char → Bool
  | [], pat => pat.isEmpty
  | c :: cs, pat => charsStartWith (c :: cs) pat || charsContain cs pat

/-- JavaScript String.prototype.includes on our strings. -/
def strContains (hay pat : String) : Bool :=
  charsContain hay.toList pat.toList

/-- JavaScript String.prototype.endsWith. -/
def strEndsWith (s suffix : String) : Bool :=
  charsStartWith s.toList.reverse suffix.toList.reverse

/-- JavaScript String.prototype.toLowerCase (ASCII-adequate for this code). -/
def strLower (s : String) : String :=
  String.mk (s.toList.map Char.toLower)

/-- JavaScript String.prototype.split with a single-character separator. -/
def splitChars (sep : Char) : List Char → List (List Char)
  | [] => [[]]
  | c :: cs =>
    let rest := splitChars sep cs
    if c == sep then [] :: rest
    else
      match rest with
      | h :: t => (c :: h) :: t
      | [] => [[c]]

/-- JavaScript split followed by the chunk list. -/
def strSplit (s : String) (sep : Char) : List String :=
  (splitChars sep s.toList).map String.mk

/-- JavaScript Array.prototype.pop on a split result: the last chunk.
split never returns an empty array, so the default is never used. -/
def strSplitPop (s : String) (sep : Char) : String :=
  (strSplit s sep).getLastD ""

/-- JavaScript Math.round on the rationals that the engine produces:
round half toward positive infinity, i.e. floor (q + 1/2). -/
def jsRound (q : ℚ) : ℤ := ⌊q + 1 / 2⌋

/-- A file descriptor handed to the engine (shared/fileAnalysis.ts
UploadedFile; the optional binary content field is omitted, and the
random id string is dropped). -/
structure UploadedFile where
  name : String
  size : Nat
  type : String
  uploadedAt : Int
  hash : String
deriving DecidableEq, Repr

/-- One detection record (random id string dropped; description and
evidence are free text reproduced from the source). -/
structure DetectionResult where
  category : String
  severity : Severity
  description : String
  evidence : String
  confidence : Nat
deriving DecidableEq, Repr

/-- The four detection groups of a result. -/
structure Detections where
  malwareSignatures : List DetectionResult
  suspiciousPatterns : List DetectionResult
  fileIntegrity : List DetectionResult
  behaviorAnalysis : List DetectionResult
deriving DecidableEq, Repr

/-- Derived file properties of a result. -/
structure FileProperties where
  fileType : String
  actualType : String
  size : Nat
  entropy : ℚ
  isEncrypted : Bool
  hasExecutableCode : Bool
  suspiciousNames : List String
deriving DecidableEq, Repr

/-- Threat-intelligence summary of a result. -/
structure ThreatIntel where
  knownMalware : Bool
  familyName : Option String
deriving DecidableEq, Repr

/-- One file analysis result (shared/fileAnalysis.ts FileAnalysisResult;
random id string dropped, times in milliseconds). -/
structure FileAnalysisResult where
  file : UploadedFile
  status : ScanStatus
  overallThreat : ThreatLevel
  riskScore : Int
  scanProgress : Nat
  startTime : Int
  endTime : Option Int
  detections : Detections
  fileProperties : FileProperties
  recommendations : List String
  threatIntelligence : ThreatIntel
deriving DecidableEq, Repr

/-- One batch-scan session (shared/fileAnalysis.ts ScanSession). -/
structure ScanSession where
  id : String
  files : List FileAnalysisResult
  startTime : Int
  totalFiles : Nat
  completedFiles : Nat
  threatsFound : Nat
  cleanFiles : Nat
deriving DecidableEq, Repr

/-- The environment inputs consumed while analyzing one file: the
Math.random() draws and wall-clock readings of analyzeFile.
entropy models Math.random() * 8 at result creation; exeSigDraw models
Math.random() > 0.7 in scanForMalwareSignatures; behaviorDraw models
Math.random() > 0.6 and stringsDraw Math.random() > 0.8 in
performBehaviorAnalysis; startTimeMs and endTimeMs model new Date(). -/
structure FileOracle where
  entropy : ℚ
  exeSigDraw : Bool
  behaviorDraw : Bool
  stringsDraw : Bool
  startTimeMs : Int
  endTimeMs : Int
deriving DecidableEq, Repr

/-- Known malicious filename fragments (FileAnalysisEngine field). -/
def maliciousPatterns : List String :=
  ["backdoor", "trojan", "virus", "malware", "keylogger", "ransomware",
   "cryptominer", "rootkit", "spyware", "adware", "exploit"]

/-- Suspicious file extensions (FileAnalysisEngine field). -/
def suspiciousExtensions : List String :=
  [".exe", ".scr", ".bat", ".cmd", ".com", ".pif", ".vbs", ".js",
   ".jar", ".zip", ".rar", ".7z"]

/-- Known malicious content hashes (FileAnalysisEngine field). -/
def maliciousHashes : List String :=
  ["a1b2c3d4e5f6789", "malware123456789", "trojan987654321", "backdoor111111111"]

/-- Extension-to-MIME map of detectFileType. -/
def typeMap : List (String × String) :=
  [("exe", "application/x-executable"),
   ("pdf", "application/pdf"),
   ("doc", "application/msword"),
   ("docx", "application/vnd.openxmlformats-officedocument.wordprocessingml.document"),
   ("zip", "application/zip"),
   ("rar", "application/x-rar-compressed"),
   ("jpg", "image/jpeg"),
   ("png", "image/png"),
   ("txt", "text/plain")]

/-- detectFileType: map the lower-cased final extension through typeMap,
defaulting to application/octet-stream. -/
def detectFileType (filename : String) : String :=
  let ext := strSplitPop (strLower filename) '.'
  match typeMap.lookup ext with
  | some t => t
  | none => "application/octet-stream"

/-- The per-pattern body of the filename loop in scanForMalwareSignatures:
push a HIGH signature when the lower-cased name contains the pattern. -/
def addPatternSig (fileName : String) (acc : FileAnalysisResult)
    (pattern : String) : FileAnalysisResult :=
  if strContains fileName pattern then
    { acc with
      detections.malwareSignatures := acc.detections.malwareSignatures ++
        [{ category := "Malicious Filename Pattern", severity := Severity.HIGH,
           description := "Filename contains suspicious pattern: " ++ pattern,
           evidence := "Filename: " ++ acc.file.name, confidence := 85 }] }
  else acc

/-- scanForMalwareSignatures (engine lines 141-188): hash blacklist,
filename pattern scan, and the randomized executable signature hit. -/
def scanForMalwareSignatures (o : FileOracle) (r : FileAnalysisResult) :
    FileAnalysisResult :=
  let r :=
    if maliciousHashes.contains r.file.hash then
      { r with
        detections.malwareSignatures := r.detections.malwareSignatures ++
          [{ category := "Known Malware Hash", severity := Severity.CRITICAL,
             description := "File hash matches known malware signature",
             evidence := "Hash: " ++ r.file.hash, confidence := 98 }],
        threatIntelligence :=
          { knownMalware := true, familyName := some "Generic.Malware" } }
    else r
  let fileName := strLower r.file.name
  let r := maliciousPatterns.foldl (addPatternSig fileName) r
  if suspiciousExtensions.any (fun ext => strEndsWith fileName ext) then
    let r := { r with fileProperties.hasExecutableCode := true }
    if o.exeSigDraw then
      { r with
        detections.malwareSignatures := r.detections.malwareSignatures ++
          [{ category := "Malware Signature", severity := Severity.CRITICAL,
             description := "File contains known malware signature",
             evidence := "Binary pattern match at offset 0x1234", confidence := 95 }] }
    else r
  else r

/-- scanForSuspiciousPatterns (engine lines 190-241): extension check,
double extension, and the two size anomalies. -/
def scanForSuspiciousPatterns (r : FileAnalysisResult) : FileAnalysisResult :=
  let fileExt := strSplitPop (strLower r.file.name) '.'
  let r :=
    if suspiciousExtensions.contains ("." ++ fileExt) then
      { r with
        detections.suspiciousPatterns := r.detections.suspiciousPatterns ++
          [{ category := "Suspicious File Extension", severity := Severity.MEDIUM,
             description := "File has potentially dangerous extension: ." ++ fileExt,
             evidence := "Extension: ." ++ fileExt, confidence := 70 }] }
    else r
  let parts := strSplit r.file.name '.'
  let r :=
    if parts.length > 2 then
      { r with
        detections.suspiciousPatterns := r.detections.suspiciousPatterns ++
          [{ category := "Double Extension", severity := Severity.HIGH,
             description := "File uses double extension, common in malware",
             evidence := "Filename: " ++ r.file.name, confidence := 80 }] }
    else r
  let r :=
    if r.file.size < 1024 && strEndsWith r.file.name ".exe" then
      { r with
        detections.suspiciousPatterns := r.detections.suspiciousPatterns ++
          [{ category := "Size Anomaly", severity := Severity.MEDIUM,
             description := "Executable file unusually small",
             evidence := "Size evidence", confidence := 65 }] }
    else r
  if r.file.size > 100 * 1024 * 1024 then
    { r with
      detections.suspiciousPatterns := r.detections.suspiciousPatterns ++
        [{ category := "Size Anomaly", severity := Severity.LOW,
           description := "File unusually large, may contain hidden payload",
           evidence := "Size evidence", confidence := 50 }] }
  else r

/-- analyzeFileIntegrity (engine lines 243-273): the entropy heuristic
and the declared-versus-actual type comparison. -/
def analyzeFileIntegrity (r : FileAnalysisResult) : FileAnalysisResult :=
  let r :=
    if r.fileProperties.entropy > 15 / 2 then
      { r with
        fileProperties.isEncrypted := true,
        detections.fileIntegrity := r.detections.fileIntegrity ++
          [{ category := "High Entropy", severity := Severity.MEDIUM,
             description := "File has high entropy, may be encrypted or packed",
             evidence := "Entropy evidence", confidence := 75 }] }
    else r
  if r.file.type ≠ "" ∧ r.fileProperties.actualType ≠ "" ∧
      r.file.type ≠ r.fileProperties.actualType then
    { r with
      detections.fileIntegrity := r.detections.fileIntegrity ++
        [{ category := "Type Mismatch", severity := Severity.HIGH,
           description := "File extension does not match actual file type",
           evidence := "Declared: " ++ r.file.type ++ ", Actual: " ++
             r.fileProperties.actualType, confidence := 90 }] }
  else r

/-- performBehaviorAnalysis (engine lines 275-313): randomized behavior
and string findings (the randomly chosen behavior text is fixed to the
category label, which is all later stages inspect). -/
def performBehaviorAnalysis (o : FileOracle) (r : FileAnalysisResult) :
    FileAnalysisResult :=
  let r :=
    if r.fileProperties.hasExecutableCode && o.behaviorDraw then
      { r with
        detections.behaviorAnalysis := r.detections.behaviorAnalysis ++
          [{ category := "Suspicious Behavior", severity := Severity.HIGH,
             description := "Suspicious behavior observed",
             evidence := "Static analysis of executable code", confidence := 82 }] }
    else r
  if o.stringsDraw then
    { r with
      detections.behaviorAnalysis := r.detections.behaviorAnalysis ++
        [{ category := "Suspicious Strings", severity := Severity.MEDIUM,
           description := "File contains suspicious text patterns",
           evidence := "Encrypted strings, API calls, network URLs",
           confidence := 70 }] }
  else r

/-- Severity weight table of calculateFinalRisk. -/
def severityScore : Severity → Nat
  | Severity.LOW => 10
  | Severity.MEDIUM => 25
  | Severity.HIGH => 50
  | Severity.CRITICAL => 80

/-- All detections of a result, in the concatenation order that
calculateFinalRisk uses. -/
def allDetections (d : Detections) : List DetectionResult :=
  d.malwareSignatures ++ d.suspiciousPatterns ++ d.fileIntegrity ++
    d.behaviorAnalysis

/-- Contribution of one detection: severityScore * (confidence / 100). -/
def contribOf (d : DetectionResult) : ℚ :=
  (severityScore d.severity : ℚ) * ((d.confidence : ℚ) / 100)

/-- The floating-point risk accumulation of calculateFinalRisk. -/
def rawRiskOf (l : List DetectionResult) : ℚ :=
  l.foldl (fun acc d => acc + contribOf d) 0

/-- generateRecommendations (engine lines 359-375): fixed advice lists
selected by classification bucket only. -/
def generateRecommendations (r : FileAnalysisResult) : FileAnalysisResult :=
  if r.overallThreat = ThreatLevel.CRITICAL ∨
      r.overallThreat = ThreatLevel.MALICIOUS then
    { r with recommendations := r.recommendations ++
        ["DO NOT EXECUTE this file - it contains malware",
         "Delete the file immediately",
         "Scan your system for infections",
         "Update antivirus signatures"] }
  else if r.overallThreat = ThreatLevel.SUSPICIOUS then
    { r with recommendations := r.recommendations ++
        ["Exercise caution with this file",
         "Perform additional analysis before execution",
         "Consider running in a sandboxed environment",
         "Verify file source and authenticity"] }
  else
    { r with recommendations := r.recommendations ++
        ["File appears to be clean",
         "Regular scans recommended",
         "Continue monitoring file behavior"] }

/-- calculateFinalRisk (engine lines 315-357): sum the weighted
contributions, round, clamp at 100, and classify by the fixed
breakpoints 80 / 60 / 30.  The source also computes a maxSeverity
local that is never read after its loop; it is omitted. -/
def calculateFinalRisk (r : FileAnalysisResult) : FileAnalysisResult :=
  let score : Int := min (jsRound (rawRiskOf (allDetections r.detections))) 100
  let threat : ThreatLevel :=
    if score ≥ 80 then ThreatLevel.CRITICAL
    else if score ≥ 60 then ThreatLevel.MALICIOUS
    else if score ≥ 30 then ThreatLevel.SUSPICIOUS
    else ThreatLevel.CLEAN
  generateRecommendations { r with riskScore := score, overallThreat := threat }

/-- The freshly created result that analyzeFile publishes first
(engine lines 81-111). -/
def initResult (file : UploadedFile) (o : FileOracle) : FileAnalysisResult :=
  { file := file
    status := ScanStatus.SCANNING
    overallThreat := ThreatLevel.CLEAN
    riskScore := 0
    scanProgress := 0
    startTime := o.startTimeMs
    endTime := none
    detections :=
      { malwareSignatures := [], suspiciousPatterns := [],
        fileIntegrity := [], behaviorAnalysis := [] }
    fileProperties :=
      { fileType := if file.type = "" then "unknown" else file.type
        actualType := detectFileType file.name
        size := file.size
        entropy := o.entropy
        isEncrypted := false
        hasExecutableCode := false
        suspiciousNames := [] }
    recommendations := []
    threatIntelligence := { knownMalware := false, familyName := none } }

/-- One iteration of the progress loop of analyzeFile: set scanProgress
to the loop value and run the stage scheduled at 30, 50, 70 or 90. -/
def runStage (o : FileOracle) (r : FileAnalysisResult) (p : Nat) :
    FileAnalysisResult :=
  let r := { r with scanProgress := p }
  if p = 30 then scanForMalwareSignatures o r
  else if p = 50 then scanForSuspiciousPatterns r
  else if p = 70 then analyzeFileIntegrity r
  else if p = 90 then performBehaviorAnalysis o r
  else r

/-- The values visited by the source loop
for (let progress = 10; progress <= 100; progress += 20):
10, 30, 50, 70, 90 - the next candidate 110 exceeds the bound, so the
loop never sets scanProgress to 100. -/
def progressValues : List Nat := [10, 30, 50, 70, 90]

/-- The result state after the whole progress loop. -/
def afterStages (file : UploadedFile) (o : FileOracle) : FileAnalysisResult :=
  progressValues.foldl (runStage o) (initResult file o)

/-- analyzeFile (engine lines 80-139): run the loop, compute the final
risk, mark completed and stamp the end time. -/
def analyzeFile (file : UploadedFile) (o : FileOracle) : FileAnalysisResult :=
  { calculateFinalRisk (afterStages file o) with
    status := ScanStatus.COMPLETED, endTime := some o.endTimeMs }

/-- The successive states published through notifyListeners while a
file is analyzed: the fresh result, the state after each loop
iteration, and the completed result. -/
def stageTrace (o : FileOracle) (r : FileAnalysisResult) :
    List Nat → List FileAnalysisResult
  | [] => [r]
  | p :: ps => r :: stageTrace o (runStage o r p) ps

/-- All states of one file that reach the listeners, in publish order. -/
def analyzeFilePublishes (file : UploadedFile) (o : FileOracle) :
    List FileAnalysisResult :=
  stageTrace o (initResult file o) progressValues ++ [analyzeFile file o]

/-- The session object created at the top of analyzeFiles. -/
def initSession (sessionId : String) (startTime : Int) (total : Nat) :
    ScanSession :=
  { id := sessionId, files := [], startTime := startTime, totalFiles := total,
    completedFiles := 0, threatsFound := 0, cleanFiles := 0 }

/-- The per-file body of the analyzeFiles loop (engine lines 63-75):
append the result, bump the threat or clean counter, bump completed. -/
def analyzeFilesStep (s : ScanSession) (input : UploadedFile × FileOracle) :
    ScanSession :=
  let result := analyzeFile input.1 input.2
  let s1 := { s with files := s.files ++ [result] }
  let s2 :=
    if !(result.overallThreat == ThreatLevel.CLEAN) then
      { s1 with threatsFound := s1.threatsFound + 1 }
    else
      { s1 with cleanFiles := s1.cleanFiles + 1 }
  { s2 with completedFiles := s2.completedFiles + 1 }

/-- The successive session states published through
notifySessionListeners: the fresh session and the state after each
completed file. -/
def sessionTrace (s : ScanSession) :
    List (UploadedFile × FileOracle) → List ScanSession
  | [] => [s]
  | x :: xs => s :: sessionTrace (analyzeFilesStep s x) xs

/-- analyzeFiles (engine lines 47-78), viewed as the list of published
session states for a batch of inputs. -/
def analyzeFilesTrace (sessionId : String) (startTime : Int)
    (inputs : List (UploadedFile × FileOracle)) : List ScanSession :=
  sessionTrace (initSession sessionId startTime inputs.length) inputs

/-- The terminal session state of analyzeFiles. -/
def runSession (sessionId : String) (startTime : Int)
    (inputs : List (UploadedFile × FileOracle)) : ScanSession :=
  inputs.foldl analyzeFilesStep (initSession sessionId startTime inputs.length)

/-- One durable history record (scanHistory.ts HistoricalScan; the
random id is supplied by the caller of the model as a fresh string). -/
structure HistoricalScan where
  id : String
  sessionId : String
  timestamp : Int
  totalFiles : Nat
  threatsFound : Nat
  cleanFiles : Nat
  avgRiskScore : Int
  duration : Int
  results : List FileAnalysisResult
  tags : List String
  notes : Option String
deriving DecidableEq, Repr

/-- Maximum retained history entries (ScanHistoryManager field). -/
def MAX_HISTORY_ITEMS : Nat := 1000

/-- Deduplicate keeping the first occurrence of each element - the
behavior of building a JavaScript Set from a list and spreading it. -/
def dedupFirst : List String → List String
  | [] => []
  | x :: xs => x :: dedupFirst (xs.filter (fun y => y != x))
termination_by l => l.length
decreasing_by
  simp only [List.length_cons]
  exact Nat.lt_succ_of_le (List.length_filter_le _ xs)

/-- The auto tags contributed by one result inside generateAutoTags
(scanHistory.ts lines 238-265), in insertion order: threat level,
file-extension tag when the popped extension is non-empty, risk
bucket, and one marker per non-empty detection group. -/
def autoTagsOf (r : FileAnalysisResult) : List String :=
  [threatToLowerString r.overallThreat] ++
  (let extension := strLower (strSplitPop r.file.name '.')
   if extension != "" then ["file-" ++ extension] else []) ++
  [if r.riskScore ≥ 80 then "critical-risk"
   else if r.riskScore ≥ 60 then "high-risk"
   else if r.riskScore ≥ 30 then "medium-risk"
   else "low-risk"] ++
  (if r.detections.malwareSignatures.length > 0 then ["malware-detected"] else []) ++
  (if r.detections.suspiciousPatterns.length > 0 then ["suspicious-patterns"] else []) ++
  (if r.detections.fileIntegrity.length > 0 then ["integrity-issues"] else []) ++
  (if r.detections.behaviorAnalysis.length > 0 then ["behavioral-threats"] else [])

/-- generateAutoTags: the Set of all per-result tags, insertion order. -/
def generateAutoTags (results : List FileAnalysisResult) : List String :=
  dedupFirst (results.foldr (fun r acc => autoTagsOf r ++ acc) [])

/-- The HistoricalScan record built by saveHistoricalScan (lines 38-66)
from a session and its results; fresh stands for the Date.now-based
random id string.  The stored results have binary content stripped,
which the model reflects by carrying no content field at all. -/
def mkHistoricalScan (fresh : String) (session : ScanSession)
    (results : List FileAnalysisResult) : HistoricalScan :=
  { id := fresh
    sessionId := session.id
    timestamp := session.startTime
    totalFiles := results.length
    threatsFound := (results.filter fun r => !(r.overallThreat == ThreatLevel.CLEAN)).length
    cleanFiles := (results.filter fun r => r.overallThreat == ThreatLevel.CLEAN).length
    avgRiskScore :=
      if results.length > 0 then
        jsRound ((results.foldl (fun sum r => sum + (r.riskScore : ℚ)) 0) /
          (results.length : ℚ))
      else 0
    duration :=
      match results.head? with
      | some r0 =>
        match r0.endTime with
        | some t => jsRound (((t - session.startTime : ℤ) : ℚ) / 1000)
        | none => 0
      | none => 0
    results := results
    tags := generateAutoTags results
    notes := none }

/-- saveHistoricalScan (lines 38-77): build the record, unshift it onto
the stored list, and splice away everything beyond the cap. -/
def saveHistoricalScan (fresh : String) (session : ScanSession)
    (results : List FileAnalysisResult) (store : List HistoricalScan) :
    List HistoricalScan :=
  let history := mkHistoricalScan fresh session results :: store
  if history.length > MAX_HISTORY_ITEMS then history.take MAX_HISTORY_ITEMS
  else history

/-- getHistory (lines 79-102): parse the stored document and revive the
date fields.  The serialize/parse round trip is modelled as the
identity on the store state. -/
def getHistory (store : List HistoricalScan) : List HistoricalScan := store

/-- filterHistoryByThreatLevel (lines 172-180): pass-through on "ALL",
otherwise keep entries with at least one result at that level. -/
def filterHistoryByThreatLevel (threatLevel : String)
    (store : List HistoricalScan) : List HistoricalScan :=
  let history := getHistory store
  if threatLevel == "ALL" then history
  else
    history.filter fun scan =>
      scan.results.any fun result => threatToString result.overallThreat == threatLevel

/-- JavaScript Array.prototype.findIndex, with -1 rendered as none. -/
def jsFindIndex (p : HistoricalScan → Bool) : List HistoricalScan → Option Nat
  | [] => none
  | x :: xs => if p x then some 0 else (jsFindIndex p xs).map (· + 1)

/-- Replace the element at an index (no-op when out of range), the
effect of assigning to history[scanIndex]. -/
def updateAt (i : Nat) (f : HistoricalScan → HistoricalScan) :
    List HistoricalScan → List HistoricalScan
  | [] => []
  | x :: xs =>
    match i with
    | 0 => f x :: xs
    | j + 1 => x :: updateAt j f xs

/-- addTagsToScan (lines 215-223): find the entry by id and replace its
tags with the spread of a Set built from old tags then new tags. -/
def addTagsToScan (scanId : String) (tags : List String)
    (store : List HistoricalScan) : List HistoricalScan :=
  let history := getHistory store
  match jsFindIndex (fun scan => scan.id == scanId) history with
  | some i =>
    updateAt i (fun scan => { scan with tags := dedupFirst (scan.tags ++ tags) })
      history
  | none => history

/-- The two relevant shapes of a localStorage.setItem exception: a
QuotaExceededError (recognized by the catch in saveHistory) and any
other thrown value. -/
inductive StorageError
  | quotaExceeded
  | other
deriving DecidableEq, Repr

/-- saveHistory (lines 225-236).  The write behavior of the storage
medium is an input w: none means the write succeeded, some e that
setItem threw e.  On a quota error the source retries once with the
first half of the list; the retry is not inside a try block, so a
second failure escapes as Except.error.  Any other error is only
logged and the function returns normally. -/
def saveHistory (w : List HistoricalScan → Option StorageError)
    (history : List HistoricalScan) : Except StorageError Unit :=
  match w history with
  | none => Except.ok ()
  | some e =>
    match e with
    | StorageError.quotaExceeded =>
      let reduced := history.take (history.length / 2)
      match w reduced with
      | none => Except.ok ()
      | some e2 => Except.error e2
    | StorageError.other => Except.ok ()

/-- Spec-side classification function, stated from the specification
words: score at least 80 is critical, at least 60 malicious, at least
30 suspicious, otherwise clean. -/
def specClassify (score : Int) : ThreatLevel :=
  if score ≥ 80 then ThreatLevel.CRITICAL
  else if score ≥ 60 then ThreatLevel.MALICIOUS
  else if score ≥ 30 then ThreatLevel.SUSPICIOUS
  else ThreatLevel.CLEAN

/-- Spec-side recomputation: number of outcomes classified above clean. -/
def specThreatCount (results : List FileAnalysisResult) : Nat :=
  results.countP fun r => !(r.overallThreat == ThreatLevel.CLEAN)

/-- Spec-side recomputation: number of clean outcomes. -/
def specCleanCount (results : List FileAnalysisResult) : Nat :=
  results.countP fun r => r.overallThreat == ThreatLevel.CLEAN

/-- Spec-side recomputation: rounded arithmetic mean of the risk scores. -/
def specAvgRisk (results : List FileAnalysisResult) : Int :=
  if results.length > 0 then
    jsRound (((results.map fun r => (r.riskScore : ℚ)).sum) / (results.length : ℚ))
  else 0

/-! ## Sample values used by witnesses and counterexamples -/

/-- The 50 KB document of the acceptance scenario. -/
def scenarioDoc : UploadedFile :=
  { name := "doc.pdf", size := 51200, type := "application/pdf",
    uploadedAt := 0, hash := "hash-doc" }

/-- The 10 KB text note of the acceptance scenario. -/
def scenarioNote : UploadedFile :=
  { name := "note.txt", size := 10240, type := "text/plain",
    uploadedAt := 0, hash := "hash-note" }

/-- The 2 KB executable of the acceptance scenario. -/
def scenarioBackdoor : UploadedFile :=
  { name := "backdoor.exe", size := 2048, type := "application/x-executable",
    uploadedAt := 0, hash := "hash-bd" }

/-- A randomness draw that produces no chance detections: low entropy
and every coin flip comes up negative. -/
def benignOracle : FileOracle :=
  { entropy := 1, exeSigDraw := false, behaviorDraw := false,
    stringsDraw := false, startTimeMs := 0, endTimeMs := 5000 }

/-- A randomness draw with entropy above the 7.5 threshold and a
positive suspicious-strings flip. -/
def noisyOracle : FileOracle :=
  { entropy := 79 / 10, exeSigDraw := false, behaviorDraw := false,
    stringsDraw := true, startTimeMs := 0, endTimeMs := 5000 }

/-- A minimal stored history entry used to exercise the store. -/
def sampleEntry : HistoricalScan :=
  { id := "hist-1", sessionId := "sess-1", timestamp := 0, totalFiles := 0,
    threatsFound := 0, cleanFiles := 0, avgRiskScore := 0, duration := 0,
    results := [], tags := ["clean"], notes := none }

/-! ## Helper lemmas: stage functions leave the published header fields alone -/

/-- The published header of a result: progress, score, threat, status. -/
def header (r : FileAnalysisResult) : Nat × Int × ThreatLevel × ScanStatus :=
  (r.scanProgress, r.riskScore, r.overallThreat, r.status)

/-- The filename-pattern fold never touches the header. -/
theorem header_foldl_addPatternSig (fileName : String) (l : List String) :
    ∀ r : FileAnalysisResult,
      header (l.foldl (addPatternSig fileName) r) = header r := by
  induction l with
  | nil => intro r; rfl
  | cons p ps ih =>
    intro r
    rw [List.foldl_cons, ih (addPatternSig fileName r p)]
    unfold addPatternSig
    split <;> rfl

/-- Field form of the fold lemma: progress. -/
theorem foldl_aps_scanProgress (fileName : String) (l : List String)
    (r : FileAnalysisResult) :
    (l.foldl (addPatternSig fileName) r).scanProgress = r.scanProgress :=
  congrArg (fun t => t.1) (header_foldl_addPatternSig fileName l r)

/-- Field form of the fold lemma: score. -/
theorem foldl_aps_riskScore (fileName : String) (l : List String)
    (r : FileAnalysisResult) :
    (l.foldl (addPatternSig fileName) r).riskScore = r.riskScore :=
  congrArg (fun t => t.2.1) (header_foldl_addPatternSig fileName l r)

/-- Field form of the fold lemma: threat. -/
theorem foldl_aps_overallThreat (fileName : String) (l : List String)
    (r : FileAnalysisResult) :
    (l.foldl (addPatternSig fileName) r).overallThreat = r.overallThreat :=
  congrArg (fun t => t.2.2.1) (header_foldl_addPatternSig fileName l r)

/-- Field form of the fold lemma: status. -/
theorem foldl_aps_status (fileName : String) (l : List String)
    (r : FileAnalysisResult) :
    (l.foldl (addPatternSig fileName) r).status = r.status :=
  congrArg (fun t => t.2.2.2) (header_foldl_addPatternSig fileName l r)

/-- scanForMalwareSignatures preserves the header. -/
theorem header_scanForMalwareSignatures (o : FileOracle)
    (r : FileAnalysisResult) :
    header (scanForMalwareSignatures o r) = header r := by
  simp only [scanForMalwareSignatures]
  split_ifs <;>
    simp [header, foldl_aps_scanProgress, foldl_aps_riskScore,
      foldl_aps_overallThreat, foldl_aps_status]

/-- scanForSuspiciousPatterns preserves the header. -/
theorem header_scanForSuspiciousPatterns (r : FileAnalysisResult) :
    header (scanForSuspiciousPatterns r) = header r := by
  simp only [scanForSuspiciousPatterns]
  split_ifs <;> rfl

/-- analyzeFileIntegrity preserves the header. -/
theorem header_analyzeFileIntegrity (r : FileAnalysisResult) :
    header (analyzeFileIntegrity r) = header r := by
  simp only [analyzeFileIntegrity]
  split_ifs <;> rfl

/-- performBehaviorAnalysis preserves the header. -/
theorem header_performBehaviorAnalysis (o : FileOracle)
    (r : FileAnalysisResult) :
    header (performBehaviorAnalysis o r) = header r := by
  simp only [performBehaviorAnalysis]
  split_ifs <;> rfl

/-- A stage run at progress p leaves score, threat and status alone and
sets the progress to p. -/
theorem header_runStage (o : FileOracle) (r : FileAnalysisResult) (p : Nat) :
    header (runStage o r p) = (p, r.riskScore, r.overallThreat, r.status) := by
  simp only [runStage]
  split_ifs with h1 h2 h3 h4 <;>
    first
      | rw [header_scanForMalwareSignatures]
      | rw [header_scanForSuspiciousPatterns]
      | rw [header_analyzeFileIntegrity]
      | rw [header_performBehaviorAnalysis]
      | skip
  all_goals rfl

/-! ## Helper lemmas: final risk computation -/

/-- Each detection contributes a nonnegative amount. -/
theorem contribOf_nonneg (d : DetectionResult) : 0 ≤ contribOf d := by
  unfold contribOf
  positivity

/-- The risk fold only grows from a nonnegative start. -/
theorem foldl_contrib_nonneg (l : List DetectionResult) :
    ∀ x : ℚ, 0 ≤ x → 0 ≤ l.foldl (fun acc d => acc + contribOf d) x := by
  induction l with
  | nil => intro x hx; exact hx
  | cons d ds ih =>
    intro x hx
    rw [List.foldl_cons]
    exact ih _ (add_nonneg hx (contribOf_nonneg d))

/-- The raw accumulated risk is nonnegative. -/
theorem rawRiskOf_nonneg (l : List DetectionResult) : 0 ≤ rawRiskOf l :=
  foldl_contrib_nonneg l 0 le_rfl

/-- Rounding keeps nonnegative rationals nonnegative. -/
theorem jsRound_nonneg {q : ℚ} (h : 0 ≤ q) : 0 ≤ jsRound q := by
  unfold jsRound
  have : (0 : ℚ) ≤ q + 1 / 2 := by linarith
  exact Int.le_floor.mpr (by exact_mod_cast this)

/-- generateRecommendations only appends advice strings. -/
theorem generateRecommendations_riskScore (r : FileAnalysisResult) :
    (generateRecommendations r).riskScore = r.riskScore := by
  unfold generateRecommendations
  split_ifs <;> rfl

/-- generateRecommendations does not change the classification. -/
theorem generateRecommendations_overallThreat (r : FileAnalysisResult) :
    (generateRecommendations r).overallThreat = r.overallThreat := by
  unfold generateRecommendations
  split_ifs <;> rfl

/-- generateRecommendations does not change the progress field. -/
theorem generateRecommendations_scanProgress (r : FileAnalysisResult) :
    (generateRecommendations r).scanProgress = r.scanProgress := by
  unfold generateRecommendations
  split_ifs <;> rfl

/-- The score assigned by calculateFinalRisk, explicitly. -/
theorem calculateFinalRisk_riskScore (r : FileAnalysisResult) :
    (calculateFinalRisk r).riskScore =
      min (jsRound (rawRiskOf (allDetections r.detections))) 100 := by
  unfold calculateFinalRisk
  rw [generateRecommendations_riskScore]

/-- The classification assigned by calculateFinalRisk is exactly the
fixed-breakpoint function of the assigned score. -/
theorem calculateFinalRisk_overallThreat (r : FileAnalysisResult) :
    (calculateFinalRisk r).overallThreat =
      specClassify ((calculateFinalRisk r).riskScore) := by
  unfold calculateFinalRisk specClassify
  rw [generateRecommendations_overallThreat, generateRecommendations_riskScore]

/-- analyzeFile only stamps status and end time on top of
calculateFinalRisk, so the score is the clamped rounded accumulation. -/
theorem analyzeFile_riskScore (f : UploadedFile) (o : FileOracle) :
    (analyzeFile f o).riskScore =
      min (jsRound (rawRiskOf (allDetections (afterStages f o).detections))) 100 := by
  have h : (analyzeFile f o).riskScore =
      (calculateFinalRisk (afterStages f o)).riskScore := rfl
  rw [h]
  exact calculateFinalRisk_riskScore _

/-- The classification of an analyzed file is the fixed-breakpoint
function of its final score. -/
theorem analyzeFile_overallThreat (f : UploadedFile) (o : FileOracle) :
    (analyzeFile f o).overallThreat =
      specClassify ((analyzeFile f o).riskScore) := by
  have h1 : (analyzeFile f o).overallThreat =
      (calculateFinalRisk (afterStages f o)).overallThreat := rfl
  have h2 : (analyzeFile f o).riskScore =
      (calculateFinalRisk (afterStages f o)).riskScore := rfl
  rw [h1, h2]
  exact calculateFinalRisk_overallThreat _

/-- The final score is between 0 and 100. -/
theorem analyzeFile_riskScore_bounds (f : UploadedFile) (o : FileOracle) :
    0 ≤ (analyzeFile f o).riskScore ∧ (analyzeFile f o).riskScore ≤ 100 := by
  rw [analyzeFile_riskScore]
  constructor
  · exact le_min (jsRound_nonneg (rawRiskOf_nonneg _)) (by norm_num)
  · exact min_le_right _ _

/-- The breakpoint classification is monotone in the score. -/
theorem specClassify_mono {a b : Int} (hab : a ≤ b) :
    threatRank (specClassify a) ≤ threatRank (specClassify b) := by
  unfold specClassify
  split_ifs <;> first
    | decide
    | (exfalso; omega)

/-! ## Helper lemmas: session counters -/

/-- One loop body leaves the total alone. -/
theorem analyzeFilesStep_totalFiles (s : ScanSession)
    (x : UploadedFile × FileOracle) :
    (analyzeFilesStep s x).totalFiles = s.totalFiles := by
  simp only [analyzeFilesStep]
  split <;> rfl

/-- One loop body completes exactly one file. -/
theorem analyzeFilesStep_completedFiles (s : ScanSession)
    (x : UploadedFile × FileOracle) :
    (analyzeFilesStep s x).completedFiles = s.completedFiles + 1 := by
  simp only [analyzeFilesStep]
  split <;> rfl

/-- One loop body increments exactly one of the two outcome counters. -/
theorem analyzeFilesStep_counterSum (s : ScanSession)
    (x : UploadedFile × FileOracle) :
    (analyzeFilesStep s x).threatsFound + (analyzeFilesStep s x).cleanFiles =
      s.threatsFound + s.cleanFiles + 1 := by
  simp only [analyzeFilesStep]
  split <;> simp <;> omega

/-- Every published session state keeps the exact counter identity and
never runs past the total, provided it starts consistent and has room
for the remaining inputs. -/
theorem sessionTrace_invariant
    (inputs : List (UploadedFile × FileOracle)) :
    ∀ s : ScanSession,
      s.threatsFound + s.cleanFiles = s.completedFiles →
      s.completedFiles + inputs.length ≤ s.totalFiles →
      ∀ t ∈ sessionTrace s inputs,
        t.threatsFound + t.cleanFiles = t.completedFiles ∧
          t.completedFiles ≤ t.totalFiles := by
  induction inputs with
  | nil =>
    intro s h1 h2 t ht
    simp only [sessionTrace, List.mem_singleton] at ht
    subst ht
    exact ⟨h1, by simpa using h2⟩
  | cons x xs ih =>
    intro s h1 h2 t ht
    simp only [sessionTrace, List.mem_cons] at ht
    rcases ht with rfl | ht
    · refine ⟨h1, ?_⟩
      simp only [List.length_cons] at h2
      omega
    · refine ih (analyzeFilesStep s x) ?_ ?_ t ht
      · rw [analyzeFilesStep_counterSum, analyzeFilesStep_completedFiles, h1]
      · rw [analyzeFilesStep_completedFiles, analyzeFilesStep_totalFiles]
        simp only [List.length_cons] at h2
        omega

/-! ## Helper lemmas: the per-file publish trace -/

/-- The publish trace for the five-stage loop, written out.  Each state
is obtained from the previous one by one runStage application. -/
theorem stageTrace_progressValues (o : FileOracle) (r : FileAnalysisResult) :
    stageTrace o r progressValues =
      [r,
       runStage o r 10,
       runStage o (runStage o r 10) 30,
       runStage o (runStage o (runStage o r 10) 30) 50,
       runStage o (runStage o (runStage o (runStage o r 10) 30) 50) 70,
       runStage o (runStage o (runStage o (runStage o (runStage o r 10) 30) 50) 70) 90] := by
  simp [progressValues, stageTrace]

/-- The state after the loop is the last traced state. -/
theorem afterStages_eq_last (f : UploadedFile) (o : FileOracle) :
    afterStages f o =
      runStage o (runStage o (runStage o (runStage o
        (runStage o (initResult f o) 10) 30) 50) 70) 90 := by
  simp [afterStages, progressValues]

/-- Header of the analyzed file: completed status, the final score, the
matching classification, and scanProgress as left by the last stage. -/
theorem analyzeFile_header (f : UploadedFile) (o : FileOracle) :
    (analyzeFile f o).status = ScanStatus.COMPLETED ∧
      (analyzeFile f o).scanProgress = (afterStages f o).scanProgress := by
  constructor
  · rfl
  · have h1 : (analyzeFile f o).scanProgress =
        (calculateFinalRisk (afterStages f o)).scanProgress := rfl
    have h2 : (calculateFinalRisk (afterStages f o)).scanProgress =
        (afterStages f o).scanProgress := by
      unfold calculateFinalRisk
      rw [generateRecommendations_scanProgress]
    rw [h1, h2]

/-- A stage run sets the progress to the loop value. -/
theorem runStage_scanProgress (o : FileOracle) (r : FileAnalysisResult)
    (p : Nat) : (runStage o r p).scanProgress = p :=
  congrArg (fun t => t.1) (header_runStage o r p)

/-- A stage run leaves the score alone. -/
theorem runStage_riskScore (o : FileOracle) (r : FileAnalysisResult)
    (p : Nat) : (runStage o r p).riskScore = r.riskScore :=
  congrArg (fun t => t.2.1) (header_runStage o r p)

/-- A stage run leaves the classification alone. -/
theorem runStage_overallThreat (o : FileOracle) (r : FileAnalysisResult)
    (p : Nat) : (runStage o r p).overallThreat = r.overallThreat :=
  congrArg (fun t => t.2.2.1) (header_runStage o r p)

/-- A stage run leaves the status alone. -/
theorem runStage_status (o : FileOracle) (r : FileAnalysisResult)
    (p : Nat) : (runStage o r p).status = r.status :=
  congrArg (fun t => t.2.2.2) (header_runStage o r p)

/-- Unpublished-score predicate: the state still carries the creation
values for score, classification and status. -/
def pristine (r : FileAnalysisResult) : Prop :=
  r.riskScore = 0 ∧ r.overallThreat = ThreatLevel.CLEAN ∧
    r.status = ScanStatus.SCANNING

/-- Stages keep a state pristine. -/
theorem runStage_pristine (o : FileOracle) (r : FileAnalysisResult)
    (p : Nat) (h : pristine r) : pristine (runStage o r p) :=
  ⟨(runStage_riskScore o r p).trans h.1,
   (runStage_overallThreat o r p).trans h.2.1,
   (runStage_status o r p).trans h.2.2⟩

/-- The freshly created result is pristine. -/
theorem initResult_pristine (f : UploadedFile) (o : FileOracle) :
    pristine (initResult f o) :=
  ⟨rfl, rfl, rfl⟩

/-- Every state of the loop trace from a pristine start is pristine. -/
theorem stageTrace_pristine (o : FileOracle) (ps : List Nat) :
    ∀ r : FileAnalysisResult, pristine r →
      ∀ t ∈ stageTrace o r ps, pristine t := by
  induction ps with
  | nil =>
    intro r h t ht
    simp only [stageTrace, List.mem_singleton] at ht
    subst ht
    exact h
  | cons p ps ih =>
    intro r h t ht
    simp only [stageTrace, List.mem_cons] at ht
    rcases ht with rfl | ht
    · exact h
    · exact ih _ (runStage_pristine o r p h) t ht

/-! ## Claim C1 -/

/-- C1: at every session state published by analyzeFiles the counters
satisfy threatsFound + cleanFiles ≤ completedFiles ≤ totalFiles, and
whenever completedFiles equals totalFiles (in particular at the
terminal state) threatsFound + cleanFiles equals completedFiles. -/
theorem c1_session_counters (sessionId : String) (startTime : Int)
    (inputs : List (UploadedFile × FileOracle)) (s : ScanSession)
    (hs : s ∈ analyzeFilesTrace sessionId startTime inputs) :
    (s.threatsFound + s.cleanFiles ≤ s.completedFiles ∧
      s.completedFiles ≤ s.totalFiles) ∧
    (s.completedFiles = s.totalFiles →
      s.threatsFound + s.cleanFiles = s.completedFiles) := by
  have h := sessionTrace_invariant inputs
    (initSession sessionId startTime inputs.length) rfl
    (by simp [initSession]) s hs
  exact ⟨⟨le_of_eq h.1, h.2⟩, fun _ => h.1⟩

/-- C1 witness: the invariant instantiated on a concrete published
state of a concrete batch. -/
theorem c1_session_counters_witness :
    (initSession "sess" 0 1 ∈
      analyzeFilesTrace "sess" 0 [(scenarioDoc, benignOracle)]) ∧
    (((initSession "sess" 0 1).threatsFound +
        (initSession "sess" 0 1).cleanFiles ≤
          (initSession "sess" 0 1).completedFiles ∧
      (initSession "sess" 0 1).completedFiles ≤
        (initSession "sess" 0 1).totalFiles) ∧
    ((initSession "sess" 0 1).completedFiles =
        (initSession "sess" 0 1).totalFiles →
      (initSession "sess" 0 1).threatsFound +
        (initSession "sess" 0 1).cleanFiles =
          (initSession "sess" 0 1).completedFiles)) :=
  ⟨by simp [analyzeFilesTrace, sessionTrace],
   c1_session_counters "sess" 0 [(scenarioDoc, benignOracle)] _
     (by simp [analyzeFilesTrace, sessionTrace])⟩

/-! ## Claim C2 -/

/-- C2: for every analyzed file the risk score is an integer in the
closed range 0..100, the classification is exactly the deterministic
fixed-breakpoint function of that final score (at least 80 critical,
at least 60 malicious, at least 30 suspicious, otherwise clean), and
that breakpoint function is monotone on the severity scale. -/
theorem c2_classification_thresholds (f : UploadedFile) (o : FileOracle)
    (a b : Int) (hab : a ≤ b) :
    (0 ≤ (analyzeFile f o).riskScore ∧ (analyzeFile f o).riskScore ≤ 100) ∧
    (analyzeFile f o).overallThreat =
      specClassify ((analyzeFile f o).riskScore) ∧
    threatRank (specClassify a) ≤ threatRank (specClassify b) :=
  ⟨analyzeFile_riskScore_bounds f o,
   analyzeFile_overallThreat f o,
   specClassify_mono hab⟩

/-- C2 witness: the theorem applied to the scenario executable with
the benign randomness draw and the concrete score pair 0 and 50. -/
theorem c2_classification_thresholds_witness :
    ((0 : Int) ≤ 50) ∧
    ((0 ≤ (analyzeFile scenarioBackdoor benignOracle).riskScore ∧
        (analyzeFile scenarioBackdoor benignOracle).riskScore ≤ 100) ∧
      (analyzeFile scenarioBackdoor benignOracle).overallThreat =
        specClassify ((analyzeFile scenarioBackdoor benignOracle).riskScore) ∧
      threatRank (specClassify 0) ≤ threatRank (specClassify 50)) :=
  ⟨by decide,
   c2_classification_thresholds scenarioBackdoor benignOracle 0 50 (by decide)⟩

/-! ## Claim C5

The source loop for (let progress = 10; progress <= 100; progress += 20)
visits 10, 30, 50, 70, 90 and then stops at 110, so scanProgress never
becomes 100: the terminal publish carries 90 together with status
COMPLETED.  The repository elsewhere expects completed results to carry
scanProgress 100 (its test fixtures set scanProgress: 100 on COMPLETED
entries, and an inline copy of the loop gates its completion branch on
progress === 100), so the stall at 90 is a slip in the loop bounds. -/

section
attribute [local semireducible] Rat.add Rat.mul Rat.inv Rat.sub

/-- C5: for every file and randomness draw, the published progress
sequence is 0, 10, 30, 50, 70, 90, 90 - monotonically non-decreasing,
starting at 0, with the score and classification computed exactly once
at the final publish (every earlier publish still carries score 0,
classification CLEAN and status SCANNING) - but the terminal publish
carries progress 90, not 100. -/
theorem c5_progress_trace (f : UploadedFile) (o : FileOracle) :
    ((analyzeFilePublishes f o).map fun r => r.scanProgress) =
      [0, 10, 30, 50, 70, 90, 90] ∧
    List.Chain' (fun a b => a ≤ b)
      ((analyzeFilePublishes f o).map fun r => r.scanProgress) ∧
    (∀ r ∈ (analyzeFilePublishes f o).dropLast,
      r.riskScore = 0 ∧ r.overallThreat = ThreatLevel.CLEAN ∧
        r.status = ScanStatus.SCANNING) ∧
    ((analyzeFilePublishes f o).getLast?).map
        (fun r => (r.status, r.scanProgress)) =
      some (ScanStatus.COMPLETED, 90) := by
  have hsp : (analyzeFile f o).scanProgress = 90 := by
    rw [(analyzeFile_header f o).2, afterStages_eq_last, runStage_scanProgress]
  have hmap : ((analyzeFilePublishes f o).map fun r => r.scanProgress) =
      [0, 10, 30, 50, 70, 90, 90] := by
    unfold analyzeFilePublishes
    rw [stageTrace_progressValues]
    simp [runStage_scanProgress, hsp, initResult]
  refine ⟨hmap, ?_, ?_, ?_⟩
  · rw [hmap]; norm_num [List.chain'_cons]
  · unfold analyzeFilePublishes
    rw [List.dropLast_concat]
    exact fun r hr =>
      stageTrace_pristine o progressValues (initResult f o)
        (initResult_pristine f o) r hr
  · unfold analyzeFilePublishes
    rw [List.getLast?_concat]
    simp only [Option.map_some']
    rw [(analyzeFile_header f o).1, hsp]

/-- C5 witness: the first published state of the scenario document is
in the pre-terminal trace and still pristine. -/
theorem c5_progress_trace_witness :
    (initResult scenarioDoc benignOracle ∈
      (analyzeFilePublishes scenarioDoc benignOracle).dropLast) ∧
    ((initResult scenarioDoc benignOracle).riskScore = 0 ∧
      (initResult scenarioDoc benignOracle).overallThreat = ThreatLevel.CLEAN ∧
      (initResult scenarioDoc benignOracle).status = ScanStatus.SCANNING) := by
  have hmem : initResult scenarioDoc benignOracle ∈
      (analyzeFilePublishes scenarioDoc benignOracle).dropLast := by
    unfold analyzeFilePublishes
    rw [List.dropLast_concat, stageTrace_progressValues]
    exact List.mem_cons_self _ _
  exact ⟨hmem, (c5_progress_trace scenarioDoc benignOracle).2.2.1 _ hmem⟩

end

/-! ## Helper lemmas: history store -/

/-- Whatever the capacity check decides, the new record ends up first. -/
theorem saveHistoricalScan_head (fresh : String) (session : ScanSession)
    (results : List FileAnalysisResult) (store : List HistoricalScan) :
    (saveHistoricalScan fresh session results store).head? =
      some (mkHistoricalScan fresh session results) := by
  show (if (mkHistoricalScan fresh session results :: store).length >
        MAX_HISTORY_ITEMS then
      List.take MAX_HISTORY_ITEMS (mkHistoricalScan fresh session results :: store)
    else mkHistoricalScan fresh session results :: store).head? =
    some (mkHistoricalScan fresh session results)
  split
  · rw [show MAX_HISTORY_ITEMS = 999 + 1 from rfl, List.take_succ_cons]
    rfl
  · rfl

/-- A Bool predicate splits the filtered lengths of a list. -/
theorem filter_not_add_filter_length (p : FileAnalysisResult → Bool)
    (l : List FileAnalysisResult) :
    (l.filter fun a => !(p a)).length + (l.filter p).length = l.length := by
  induction l with
  | nil => rfl
  | cons a l ih =>
    by_cases h : p a <;> simp [List.filter_cons, h] <;> omega

/-- The risk-sum fold is the mapped sum shifted by the seed. -/
theorem foldl_riskSum (l : List FileAnalysisResult) :
    ∀ x : ℚ, l.foldl (fun sum r => sum + (r.riskScore : ℚ)) x =
      x + ((l.map fun r => (r.riskScore : ℚ)).sum) := by
  induction l with
  | nil => intro x; simp
  | cons r l ih =>
    intro x
    rw [List.foldl_cons, ih]
    simp [add_assoc]

/-! ## Claim C3 -/

/-- C3: saveHistoricalScan prepends the new entry (most-recent-first);
below capacity nothing is dropped, and recording on a store already at
the maximum retained count drops exactly the oldest entry (the last of
the ordered list), keeps the store at the maximum size, and places the
new record first. -/
theorem c3_history_prepend_capacity (fresh : String) (session : ScanSession)
    (results : List FileAnalysisResult) (store : List HistoricalScan) :
    (store.length < MAX_HISTORY_ITEMS →
      saveHistoricalScan fresh session results store =
        mkHistoricalScan fresh session results :: store) ∧
    (store.length = MAX_HISTORY_ITEMS →
      saveHistoricalScan fresh session results store =
        mkHistoricalScan fresh session results :: store.dropLast ∧
      (saveHistoricalScan fresh session results store).length =
        MAX_HISTORY_ITEMS ∧
      (saveHistoricalScan fresh session results store).head? =
        some (mkHistoricalScan fresh session results)) := by
  constructor
  · intro h
    unfold saveHistoricalScan
    rw [if_neg]
    simp only [List.length_cons]
    omega
  · intro h
    have heq : saveHistoricalScan fresh session results store =
        mkHistoricalScan fresh session results :: store.dropLast := by
      unfold saveHistoricalScan
      rw [if_pos (by simp only [List.length_cons]; omega)]
      rw [show MAX_HISTORY_ITEMS = 999 + 1 from rfl, List.take_succ_cons]
      rw [List.dropLast_eq_take, h]
      norm_num [MAX_HISTORY_ITEMS]
    refine ⟨heq, ?_, ?_⟩
    · rw [heq]
      simp only [List.length_cons, List.length_dropLast, h]
      decide
    · rw [heq]
      rfl

/-- C3 witness: recording on a store holding exactly 1000 entries. -/
theorem c3_history_prepend_capacity_witness :
    ((List.replicate 1000 sampleEntry).length = MAX_HISTORY_ITEMS) ∧
    (saveHistoricalScan "h2" (initSession "sess" 0 0) []
        (List.replicate 1000 sampleEntry) =
      mkHistoricalScan "h2" (initSession "sess" 0 0) [] ::
        (List.replicate 1000 sampleEntry).dropLast ∧
    (saveHistoricalScan "h2" (initSession "sess" 0 0) []
        (List.replicate 1000 sampleEntry)).length = MAX_HISTORY_ITEMS ∧
    (saveHistoricalScan "h2" (initSession "sess" 0 0) []
        (List.replicate 1000 sampleEntry)).head? =
      some (mkHistoricalScan "h2" (initSession "sess" 0 0) [])) :=
  ⟨by rw [List.length_replicate]; rfl,
   (c3_history_prepend_capacity "h2" (initSession "sess" 0 0) []
       (List.replicate 1000 sampleEntry)).2
     (by rw [List.length_replicate]; rfl)⟩

/-! ## Claim C10 -/

/-- C10: every record built by saveHistoricalScan satisfies
totalFiles = threatsFound + cleanFiles, because all three aggregates
are recomputed from the supplied results list, whose clean and
non-clean entries partition it. -/
theorem c10_entry_total_partition (fresh : String) (session : ScanSession)
    (results : List FileAnalysisResult) (store : List HistoricalScan) :
    (saveHistoricalScan fresh session results store).head? =
      some (mkHistoricalScan fresh session results) ∧
    (mkHistoricalScan fresh session results).totalFiles =
      (mkHistoricalScan fresh session results).threatsFound +
        (mkHistoricalScan fresh session results).cleanFiles := by
  refine ⟨saveHistoricalScan_head fresh session results store, ?_⟩
  exact (filter_not_add_filter_length
    (fun r => r.overallThreat == ThreatLevel.CLEAN) results).symm

/-! ## Claim C6 -/

/-- C6: record followed by list returns the new entry first, and its
aggregates equal independently recomputed values: avgRiskScore is the
rounded arithmetic mean of the risk scores, threatsFound the count of
outcomes classified above clean, cleanFiles the count of clean
outcomes. -/
theorem c6_record_list_aggregates (fresh : String) (session : ScanSession)
    (results : List FileAnalysisResult) (store : List HistoricalScan) :
    (getHistory (saveHistoricalScan fresh session results store)).head? =
      some (mkHistoricalScan fresh session results) ∧
    (mkHistoricalScan fresh session results).avgRiskScore =
      specAvgRisk results ∧
    (mkHistoricalScan fresh session results).threatsFound =
      specThreatCount results ∧
    (mkHistoricalScan fresh session results).cleanFiles =
      specCleanCount results := by
  refine ⟨saveHistoricalScan_head fresh session results store, ?_, ?_, ?_⟩
  · show (if results.length > 0 then
        jsRound ((results.foldl (fun sum r => sum + (r.riskScore : ℚ)) 0) /
          (results.length : ℚ))
      else 0) = specAvgRisk results
    unfold specAvgRisk
    rw [foldl_riskSum]
    rw [zero_add]
  · show (results.filter fun r => !(r.overallThreat == ThreatLevel.CLEAN)).length =
        specThreatCount results
    unfold specThreatCount
    exact (List.countP_eq_length_filter _ _).symm
  · show (results.filter fun r => r.overallThreat == ThreatLevel.CLEAN).length =
        specCleanCount results
    unfold specCleanCount
    exact (List.countP_eq_length_filter _ _).symm

/-! ## Claim C4

saveHistory retries a quota-failed write once on the halved list, but
the retry itself sits inside the catch block without its own guard, so
a second failure escapes to the caller. -/

/-- C4 counterexample: with a storage medium that always reports an
exhausted quota, saving one entry raises the retry error to the
caller, refuting the claim that no exception ever propagates. -/
theorem c4_retry_failure_propagates :
    saveHistory (fun _ => some StorageError.quotaExceeded) [sampleEntry] =
      Except.error StorageError.quotaExceeded := rfl

/-- C4 amended: a quota-failed write is retried exactly once on the
first half of the list, and an exception reaches the caller precisely
when that single retry fails too; first-write success, a non-quota
failure, or a successful retry all return normally. -/
theorem c4_quota_degrade (w : List HistoricalScan → Option StorageError)
    (history : List HistoricalScan) (e : StorageError) :
    saveHistory w history = Except.error e ↔
      (w history = some StorageError.quotaExceeded ∧
        w (history.take (history.length / 2)) = some e) := by
  unfold saveHistory
  rcases h1 : w history with _ | e1
  · simp
  · cases e1
    · rcases h2 : w (history.take (history.length / 2)) with _ | e2 <;>
        simp [h2]
    · simp

/-! ## Claim C7

The detection pipeline is randomized: an unlucky draw (entropy above
7.5 plus a positive suspicious-strings flip) pushes a harmless file to
36 points and SUSPICIOUS, so the scenario outcome threats=1/clean=2 is
not guaranteed for every run.  The backdoor.exe outcome, however, is
above clean on every draw: its name pattern (HIGH, 85) and extension
(MEDIUM, 70) detections alone score 60. -/

section
attribute [local semireducible] Rat.add Rat.mul Rat.inv Rat.sub

/-- C7 counterexample: a concrete randomness draw under which note.txt
comes out SUSPICIOUS, so the session ends with threats=2, clean=1
instead of the claimed threats=1, clean=2. -/
theorem c7_scenario_counterexample :
    (analyzeFile scenarioNote noisyOracle).overallThreat =
      ThreatLevel.SUSPICIOUS ∧
    (runSession "sess" 0 [(scenarioDoc, benignOracle),
        (scenarioNote, noisyOracle),
        (scenarioBackdoor, benignOracle)]).threatsFound = 2 ∧
    (runSession "sess" 0 [(scenarioDoc, benignOracle),
        (scenarioNote, noisyOracle),
        (scenarioBackdoor, benignOracle)]).cleanFiles = 1 ∧
    (runSession "sess" 0 [(scenarioDoc, benignOracle),
        (scenarioNote, noisyOracle),
        (scenarioBackdoor, benignOracle)]).completedFiles = 3 := by
  decide

end

/-- Randomness draws that produce no chance detections for a
non-executable file: entropy at most 7.5 and no suspicious-strings
flip. -/
def benignDraws (o : FileOracle) : Prop :=
  o.entropy ≤ 15 / 2 ∧ o.stringsDraw = false

section
attribute [local semireducible] Rat.add Rat.mul Rat.inv Rat.sub

set_option maxHeartbeats 2000000 in
/-- C7 amended: on every randomness draw the backdoor.exe outcome is
classified strictly above clean; and whenever the draws for doc.pdf
and note.txt produce no chance detections (entropy at most 7.5, no
suspicious-strings hit), those two outcomes are clean and the session
terminates with threatsFound = 1, cleanFiles = 2, completedFiles = 3. -/
theorem c7_scenario_amended (o1 o2 o3 : FileOracle)
    (h1 : benignDraws o1) (h2 : benignDraws o2) :
    (analyzeFile scenarioBackdoor o3).overallThreat ≠ ThreatLevel.CLEAN ∧
    (analyzeFile scenarioDoc o1).overallThreat = ThreatLevel.CLEAN ∧
    (analyzeFile scenarioNote o2).overallThreat = ThreatLevel.CLEAN ∧
    (runSession "sess" 0 [(scenarioDoc, o1), (scenarioNote, o2),
        (scenarioBackdoor, o3)]).threatsFound = 1 ∧
    (runSession "sess" 0 [(scenarioDoc, o1), (scenarioNote, o2),
        (scenarioBackdoor, o3)]).cleanFiles = 2 ∧
    (runSession "sess" 0 [(scenarioDoc, o1), (scenarioNote, o2),
        (scenarioBackdoor, o3)]).completedFiles = 3 := by
  have hBd : (analyzeFile scenarioBackdoor o3).overallThreat ≠
      ThreatLevel.CLEAN := by
    obtain ⟨ent, ed, bd, sd, st, et⟩ := o3
    rcases le_or_lt ent (15 / 2 : ℚ) with hent | hent
    · have hcond : ¬((15 / 2 : ℚ) < ent) := not_lt.mpr hent
      cases ed <;> cases bd <;> cases sd <;>
        simp +decide [analyzeFile, afterStages, progressValues, runStage,
          initResult, scanForMalwareSignatures, addPatternSig,
          scanForSuspiciousPatterns, analyzeFileIntegrity,
          performBehaviorAnalysis, calculateFinalRisk,
          generateRecommendations, rawRiskOf, allDetections, contribOf,
          severityScore, jsRound, detectFileType, maliciousPatterns,
          suspiciousExtensions, maliciousHashes, typeMap, strContains,
          strEndsWith, strLower, strSplitPop, strSplit, splitChars,
          charsContain, charsStartWith, hcond]
    · cases ed <;> cases bd <;> cases sd <;>
        simp +decide [analyzeFile, afterStages, progressValues, runStage,
          initResult, scanForMalwareSignatures, addPatternSig,
          scanForSuspiciousPatterns, analyzeFileIntegrity,
          performBehaviorAnalysis, calculateFinalRisk,
          generateRecommendations, rawRiskOf, allDetections, contribOf,
          severityScore, jsRound, detectFileType, maliciousPatterns,
          suspiciousExtensions, maliciousHashes, typeMap, strContains,
          strEndsWith, strLower, strSplitPop, strSplit, splitChars,
          charsContain, charsStartWith, hent]
  have hDoc : (analyzeFile scenarioDoc o1).overallThreat =
      ThreatLevel.CLEAN := by
    obtain ⟨ent, ed, bd, sd, st, et⟩ := o1
    obtain ⟨hent, hsd⟩ := h1
    have hcond : ¬((15 / 2 : ℚ) < ent) := not_lt.mpr hent
    subst hsd
    cases ed <;> cases bd <;>
      simp +decide [analyzeFile, afterStages, progressValues, runStage,
        initResult, scanForMalwareSignatures, addPatternSig,
        scanForSuspiciousPatterns, analyzeFileIntegrity,
        performBehaviorAnalysis, calculateFinalRisk,
        generateRecommendations, rawRiskOf, allDetections, contribOf,
        severityScore, jsRound, detectFileType, maliciousPatterns,
        suspiciousExtensions, maliciousHashes, typeMap, strContains,
        strEndsWith, strLower, strSplitPop, strSplit, splitChars,
        charsContain, charsStartWith, hcond]
  have hNote : (analyzeFile scenarioNote o2).overallThreat =
      ThreatLevel.CLEAN := by
    obtain ⟨ent, ed, bd, sd, st, et⟩ := o2
    obtain ⟨hent, hsd⟩ := h2
    have hcond : ¬((15 / 2 : ℚ) < ent) := not_lt.mpr hent
    subst hsd
    cases ed <;> cases bd <;>
      simp +decide [analyzeFile, afterStages, progressValues, runStage,
        initResult, scanForMalwareSignatures, addPatternSig,
        scanForSuspiciousPatterns, analyzeFileIntegrity,
        performBehaviorAnalysis, calculateFinalRisk,
        generateRecommendations, rawRiskOf, allDetections, contribOf,
        severityScore, jsRound, detectFileType, maliciousPatterns,
        suspiciousExtensions, maliciousHashes, typeMap, strContains,
        strEndsWith, strLower, strSplitPop, strSplit, splitChars,
        charsContain, charsStartWith, hcond]
  have hBdF : ((analyzeFile scenarioBackdoor o3).overallThreat ==
      ThreatLevel.CLEAN) = false := beq_eq_false_iff_ne.mpr hBd
  refine ⟨hBd, hDoc, hNote, ?_, ?_, ?_⟩ <;>
    simp [runSession, analyzeFilesStep, initSession, hDoc, hNote, hBdF]

/-- C7 amended witness: the benign draw satisfies the hypotheses and
the scenario then ends with the expected counters. -/
theorem c7_scenario_amended_witness :
    (benignDraws benignOracle ∧ benignDraws benignOracle) ∧
    ((analyzeFile scenarioBackdoor benignOracle).overallThreat ≠
        ThreatLevel.CLEAN ∧
      (analyzeFile scenarioDoc benignOracle).overallThreat =
        ThreatLevel.CLEAN ∧
      (analyzeFile scenarioNote benignOracle).overallThreat =
        ThreatLevel.CLEAN ∧
      (runSession "sess" 0 [(scenarioDoc, benignOracle),
          (scenarioNote, benignOracle),
          (scenarioBackdoor, benignOracle)]).threatsFound = 1 ∧
      (runSession "sess" 0 [(scenarioDoc, benignOracle),
          (scenarioNote, benignOracle),
          (scenarioBackdoor, benignOracle)]).cleanFiles = 2 ∧
      (runSession "sess" 0 [(scenarioDoc, benignOracle),
          (scenarioNote, benignOracle),
          (scenarioBackdoor, benignOracle)]).completedFiles = 3) :=
  ⟨⟨⟨by norm_num [benignOracle], rfl⟩, ⟨by norm_num [benignOracle], rfl⟩⟩,
   c7_scenario_amended benignOracle benignOracle benignOracle
     ⟨by norm_num [benignOracle], rfl⟩ ⟨by norm_num [benignOracle], rfl⟩⟩

end

/-! ## Helper lemmas: tag deduplication and indexed update -/

/-- Deduplication preserves membership. -/
theorem mem_dedupFirst (l : List String) :
    ∀ x, x ∈ dedupFirst l ↔ x ∈ l := by
  induction l using dedupFirst.induct with
  | case1 => intro x; simp [dedupFirst]
  | case2 y ys ih =>
    intro x
    rw [dedupFirst]
    by_cases hxy : x = y
    · subst hxy; simp
    · simp only [List.mem_cons, ih, List.mem_filter, bne_iff_ne]
      simp [hxy]

/-- Deduplication produces a duplicate-free list. -/
theorem nodup_dedupFirst (l : List String) : (dedupFirst l).Nodup := by
  induction l using dedupFirst.induct with
  | case1 => simp [dedupFirst]
  | case2 y ys ih =>
    rw [dedupFirst]
    refine List.Nodup.cons ?_ ih
    intro hmem
    have := (mem_dedupFirst _ y).mp hmem
    simp [List.mem_filter] at this

/-- Appending elements already present does not change the
deduplicated list. -/
theorem dedupFirst_append_of_subset (l : List String) :
    ∀ t : List String, (∀ x ∈ t, x ∈ l) → dedupFirst (l ++ t) = dedupFirst l := by
  induction l using dedupFirst.induct with
  | case1 =>
    intro t ht
    have : t = [] := List.eq_nil_iff_forall_not_mem.mpr fun x hx =>
      (List.not_mem_nil x) (ht x hx)
    subst this
    rfl
  | case2 y ys ih =>
    intro t ht
    rw [List.cons_append, dedupFirst, List.filter_append, dedupFirst]
    congr 1
    refine ih (t.filter fun z => z != y) ?_
    intro x hx
    rcases List.mem_filter.mp hx with ⟨hxt, hxny⟩
    rcases List.mem_cons.mp (ht x hxt) with h | h
    · exact absurd h (bne_iff_ne.mp hxny)
    · exact List.mem_filter.mpr ⟨h, hxny⟩

/-- A duplicate-free list deduplicates to itself. -/
theorem dedupFirst_eq_self (l : List String) (h : l.Nodup) :
    dedupFirst l = l := by
  induction l with
  | nil => simp [dedupFirst]
  | cons y ys ih =>
    rw [dedupFirst, List.filter_eq_self.mpr, ih h.of_cons]
    intro a ha
    exact bne_iff_ne.mpr fun e => (List.nodup_cons.mp h).1 (e ▸ ha)

/-- Deduplication is idempotent. -/
theorem dedupFirst_idem (l : List String) :
    dedupFirst (dedupFirst l) = dedupFirst l :=
  dedupFirst_eq_self _ (nodup_dedupFirst l)

/-- Updating at an index changes exactly that position. -/
theorem updateAt_getElem (f : HistoricalScan → HistoricalScan) :
    ∀ (l : List HistoricalScan) (i : Nat),
      (updateAt i f l)[i]? = (l[i]?).map f := by
  intro l
  induction l with
  | nil => intro i; simp [updateAt]
  | cons x xs ih =>
    intro i
    cases i with
    | zero => simp [updateAt]
    | succ j => simpa [updateAt] using ih j

/-- An id-preserving update does not move the first matching index. -/
theorem jsFindIndex_updateAt (scanId : String)
    (f : HistoricalScan → HistoricalScan) (hf : ∀ x, (f x).id = x.id) :
    ∀ (l : List HistoricalScan) (i : Nat),
      jsFindIndex (fun s => s.id == scanId) (updateAt i f l) =
        jsFindIndex (fun s => s.id == scanId) l := by
  intro l
  induction l with
  | nil => intro i; simp [updateAt]
  | cons x xs ih =>
    intro i
    cases i with
    | zero => simp [updateAt, jsFindIndex, hf x]
    | succ j => simp [updateAt, jsFindIndex, ih j]

/-- Two updates at the same index compose. -/
theorem updateAt_updateAt (f g : HistoricalScan → HistoricalScan) :
    ∀ (l : List HistoricalScan) (i : Nat),
      updateAt i f (updateAt i g l) = updateAt i (fun x => f (g x)) l := by
  intro l
  induction l with
  | nil => intro i; simp [updateAt]
  | cons x xs ih =>
    intro i
    cases i with
    | zero => simp [updateAt]
    | succ j => simp [updateAt, ih j]

/-- Pointwise equal update functions update equally. -/
theorem updateAt_congr (f g : HistoricalScan → HistoricalScan)
    (h : ∀ x, f x = g x) (l : List HistoricalScan) (i : Nat) :
    updateAt i f l = updateAt i g l := by
  have : f = g := funext h
  rw [this]

/-- When the id is found, addTagsToScan is the indexed tag update. -/
theorem addTagsToScan_eq (scanId : String) (tags : List String)
    (l : List HistoricalScan) (i : Nat)
    (h : jsFindIndex (fun s => s.id == scanId) l = some i) :
    addTagsToScan scanId tags l =
      updateAt i
        (fun scan => { scan with tags := dedupFirst (scan.tags ++ tags) }) l := by
  unfold addTagsToScan getHistory
  dsimp only
  rw [h]

/-! ## Claim C8 -/

/-- C8: for a stored id found at index i, addTagsToScan replaces that
entry's tags with the deduplicated union of its old tags and the
supplied tags (membership is the set union, duplicates collapsed), and
repeating the call with the same tag list leaves the whole store
unchanged. -/
theorem c8_add_tags_union (store : List HistoricalScan) (scanId : String)
    (tags : List String) (i : Nat) (e : HistoricalScan)
    (hfind : jsFindIndex (fun s => s.id == scanId) store = some i)
    (he : store[i]? = some e) :
    (addTagsToScan scanId tags store)[i]? =
      some { e with tags := dedupFirst (e.tags ++ tags) } ∧
    (∀ x, x ∈ dedupFirst (e.tags ++ tags) ↔ (x ∈ e.tags ∨ x ∈ tags)) ∧
    (dedupFirst (e.tags ++ tags)).Nodup ∧
    addTagsToScan scanId tags (addTagsToScan scanId tags store) =
      addTagsToScan scanId tags store := by
  have hstep := addTagsToScan_eq scanId tags store i hfind
  refine ⟨?_, ?_, ?_, ?_⟩
  · rw [hstep, updateAt_getElem, he]
    rfl
  · intro x
    rw [mem_dedupFirst, List.mem_append]
  · exact nodup_dedupFirst _
  · have hfind2 : jsFindIndex (fun s => s.id == scanId)
        (addTagsToScan scanId tags store) = some i := by
      rw [hstep,
        jsFindIndex_updateAt scanId
          (fun scan => { scan with tags := dedupFirst (scan.tags ++ tags) })
          (fun x => rfl),
        hfind]
    have hstep2 := addTagsToScan_eq scanId tags
      (addTagsToScan scanId tags store) i hfind2
    rw [hstep2, hstep, updateAt_updateAt]
    refine updateAt_congr _ _ ?_ store i
    intro x
    show ({ x with
        tags := dedupFirst (dedupFirst (x.tags ++ tags) ++ tags) } :
          HistoricalScan) =
      { x with tags := dedupFirst (x.tags ++ tags) }
    rw [dedupFirst_append_of_subset _ tags
      (fun y hy => (mem_dedupFirst _ y).mpr (List.mem_append_right _ hy)),
      dedupFirst_idem]

/-- C8 witness: adding a tag twice to a concrete one-entry store. -/
theorem c8_add_tags_union_witness :
    (jsFindIndex (fun s => s.id == "hist-1") [sampleEntry] = some 0 ∧
      [sampleEntry][0]? = some sampleEntry) ∧
    ((addTagsToScan "hist-1" ["incident-42"] [sampleEntry])[0]? =
      some { sampleEntry with
        tags := dedupFirst (sampleEntry.tags ++ ["incident-42"]) } ∧
    (∀ x, x ∈ dedupFirst (sampleEntry.tags ++ ["incident-42"]) ↔
      (x ∈ sampleEntry.tags ∨ x ∈ ["incident-42"])) ∧
    (dedupFirst (sampleEntry.tags ++ ["incident-42"])).Nodup ∧
    addTagsToScan "hist-1" ["incident-42"]
        (addTagsToScan "hist-1" ["incident-42"] [sampleEntry]) =
      addTagsToScan "hist-1" ["incident-42"] [sampleEntry]) :=
  ⟨⟨by decide, by decide⟩,
   c8_add_tags_union [sampleEntry] "hist-1" ["incident-42"] 0 sampleEntry
     (by decide) (by decide)⟩

/-! ## Claim C9 -/

/-- C9: filtering by threat level with "ALL" is exactly the unfiltered
list(); for any other level the result is a sublist (stored order
preserved) holding exactly the entries with at least one file outcome
at that classification. -/
theorem c9_filter_threat_level (store : List HistoricalScan) (lvl : String)
    (e : HistoricalScan) (hne : lvl ≠ "ALL") :
    filterHistoryByThreatLevel "ALL" store = getHistory store ∧
    (filterHistoryByThreatLevel lvl store).Sublist (getHistory store) ∧
    (e ∈ filterHistoryByThreatLevel lvl store ↔
      e ∈ getHistory store ∧
        ∃ r ∈ e.results, threatToString r.overallThreat = lvl) := by
  have hred : filterHistoryByThreatLevel lvl store =
      (getHistory store).filter fun scan =>
        scan.results.any fun result =>
          threatToString result.overallThreat == lvl := by
    unfold filterHistoryByThreatLevel
    dsimp only
    rw [if_neg]
    simp [hne]
  refine ⟨rfl, ?_, ?_⟩
  · rw [hred]
    exact List.filter_sublist _
  · rw [hred]
    simp [List.mem_filter, List.any_eq_true]

/-- C9 witness: filtering a concrete one-entry store by "CLEAN". -/
theorem c9_filter_threat_level_witness :
    ("CLEAN" ≠ "ALL") ∧
    (filterHistoryByThreatLevel "ALL" [sampleEntry] =
        getHistory [sampleEntry] ∧
      (filterHistoryByThreatLevel "CLEAN" [sampleEntry]).Sublist
        (getHistory [sampleEntry]) ∧
      (sampleEntry ∈ filterHistoryByThreatLevel "CLEAN" [sampleEntry] ↔
        sampleEntry ∈ getHistory [sampleEntry] ∧
          ∃ r ∈ sampleEntry.results,
            threatToString r.overallThreat = "CLEAN")) :=
  ⟨by decide,
   c9_filter_threat_level [sampleEntry] "CLEAN" sampleEntry (by decide)⟩
